import Mathlib

/-!
Shallow embedding of the `htoo` HTTP/2 framing codec
(`src/flags.rs`, `src/frames.rs`, `src/parsers.rs`).

Byte buffers (`&[u8]`) are `List Nat` (each element a byte value).
`nom`'s `IResult<&[u8], A>` is `Except NomErrorKind (Bytes × A)`: on success the
first component is the unconsumed tail, matching nom's `(remaining, value)`.
The `complete` combinators used by the source (`take`, `be_u8` .. `be_u64`)
report insufficient input as `ErrorKind::Eof`, modelled by `.eof`.
Machine integers are `Nat`; `u32::saturating_sub` is Lean's truncated `Nat`
subtraction, and bit extraction is written with `/`, `%` and powers of two.
-/

/-- A byte buffer: the contents of a Rust `&[u8]`, one `Nat` per byte. -/
abbrev Bytes := List Nat

/-- The `nom::error::ErrorKind` values the source can produce: `Eof` from the
`complete` combinators, `LengthValue` from the SETTINGS multiple-of-6 check,
`Verify` from the SETTINGS pointer-alignment check, `Alpha` from the ORIGIN
entry UTF-8 check. `LengthValue` is the spec's `Malformed` case. -/
inductive NomErrorKind
  | eof
  | lengthValue
  | verify
  | alpha
deriving DecidableEq

/-- `nom::IResult<&[u8], A>`: error kind, or `(unconsumed tail, value)`. -/
abbrev IResult (α : Type) := Except NomErrorKind (Bytes × α)

/-- `nom::bytes::complete::take(n)`: errors when fewer than `n` bytes remain,
otherwise yields the first `n` bytes with the rest as tail. -/
def nomTake (n : Nat) (bytes : Bytes) : IResult Bytes :=
  if bytes.length < n then .error .eof
  else .ok (bytes.drop n, bytes.take n)

/-- Big-endian (network order) value of a byte sequence. -/
def beVal (chunk : Bytes) : Nat :=
  chunk.foldl (fun acc b => acc * 256 + b) 0

/-- `nom::number::complete::be_u8`. -/
def beU8 (bytes : Bytes) : IResult Nat :=
  match bytes with
  | [] => .error .eof
  | b :: rest => .ok (rest, b)

/-- Common shape of `be_u16` / `be_u24` / `be_u32` / `be_u64`: take `n` bytes
and read them as a big-endian integer. -/
def beFixed (n : Nat) (bytes : Bytes) : IResult Nat :=
  match nomTake n bytes with
  | .error e => .error e
  | .ok (tail, chunk) => .ok (tail, beVal chunk)

/-- `nom::number::complete::be_u16`. -/
def beU16 : Bytes → IResult Nat := beFixed 2

/-- `nom::number::complete::be_u24`. -/
def beU24 : Bytes → IResult Nat := beFixed 3

/-- `nom::number::complete::be_u32`. -/
def beU32 : Bytes → IResult Nat := beFixed 4

/-- `nom::number::complete::be_u64`. -/
def beU64 : Bytes → IResult Nat := beFixed 8

/-- Modelled from the spec: the shared Flag Model of spec sections 3 and 4.1 —
a single 8-bit mask wrapping one byte, with a `contains` predicate and the bit
constants `0x01` (END_STREAM / ACK), `0x04` (END_HEADERS), `0x08` (PADDED),
`0x20` (PRIORITY), plus `NONE = 0`.  `src/parsers.rs` uses exactly this type
(`Flags::from(u8)`, `Flags::NONE`, `Flags::PADDED`, `Flags::PRIORITY`,
`Flags::ACK`, `flags.contains(..)`, and the tests build `Flags(255)`), but the
`Flags` definition present in `src/flags.rs` is an incompatible
per-frame-kind enum draft with none of those items, so the shared mask type
itself is code of this repository missing from `src/`. -/
structure Flags where
  bits : Nat
deriving DecidableEq

/-- Modelled from the spec: `Flags::NONE` (an empty mask). -/
def Flags.NONE : Flags := ⟨0⟩

/-- Modelled from the spec: `0x01` = END_STREAM for DATA/HEADERS, ACK for
SETTINGS/PING.  The source checks it under the name `Flags::ACK`. -/
def Flags.ACK : Flags := ⟨0x01⟩

/-- Modelled from the spec: `0x08` = PADDED (DATA, HEADERS, PUSH_PROMISE). -/
def Flags.PADDED : Flags := ⟨0x08⟩

/-- Modelled from the spec: `0x20` = PRIORITY (HEADERS only). -/
def Flags.PRIORITY : Flags := ⟨0x20⟩

/-- Modelled from the spec: `contains` with `bitflags` semantics — every bit of
the argument mask must be set. -/
def Flags.contains (f m : Flags) : Bool :=
  f.bits &&& m.bits == m.bits

/-- Modelled from the spec: `Flags::from(u8)` wraps the raw byte unchanged
(any byte is a legal `Flags` value, unassigned bits preserved). -/
def Flags.ofByte (v : Nat) : Flags := ⟨v⟩

/-!
The wire-primitive structs in `src/frames.rs` are built with the
`bitfield-struct` crate: `#[bitfield(u32)]` packs the declared fields into a
`u32` starting at the LEAST significant bit (the crate's default `order`;
`order = Msb` is not requested by the source).  `from_bits` stores the raw
word; each accessor extracts its field's bits.
-/

/-- `FrameHeaderLength` (`src/frames.rs:12`): `length` is declared first so it
occupies bits 0..24; `_padding` occupies bits 24..32. -/
structure FrameHeaderLength where
  bits : Nat
deriving DecidableEq

/-- `FrameHeaderLength::from_bits`: stores the raw 32-bit word. -/
def FrameHeaderLength.from_bits (v : Nat) : FrameHeaderLength := ⟨v % 2 ^ 32⟩

/-- `FrameHeaderLength::length()`: bits 0..24 of the stored word. -/
def FrameHeaderLength.length (x : FrameHeaderLength) : Nat := x.bits % 2 ^ 24

/-- `StreamIdentifier` (`src/frames.rs:24`): `_reserved` is declared first so
it occupies bit 0 (the least significant bit); `stream_identifier` occupies
bits 1..32. -/
structure StreamIdentifier where
  bits : Nat
deriving DecidableEq

/-- `StreamIdentifier::from_bits`: stores the raw 32-bit word. -/
def StreamIdentifier.from_bits (v : Nat) : StreamIdentifier := ⟨v % 2 ^ 32⟩

/-- `StreamIdentifier::stream_identifier()`: bits 1..32 of the stored word
(the word shifted right by one). -/
def StreamIdentifier.stream_identifier (x : StreamIdentifier) : Nat :=
  x.bits / 2 % 2 ^ 31

/-- `StreamDependency` (`src/frames.rs:36`): `exclusive` at bit 0,
`stream_identifier` at bits 1..32 (same LSB-first packing). -/
structure StreamDependency where
  bits : Nat
deriving DecidableEq

/-- `StreamDependency::from_bits`. -/
def StreamDependency.from_bits (v : Nat) : StreamDependency := ⟨v % 2 ^ 32⟩

/-- `WindowSizeIncrement` (`src/frames.rs:48`): `_reserved` at bit 0,
`window_size` at bits 1..32. -/
structure WindowSizeIncrement where
  bits : Nat
deriving DecidableEq

/-- `WindowSizeIncrement::from_bits`. -/
def WindowSizeIncrement.from_bits (v : Nat) : WindowSizeIncrement := ⟨v % 2 ^ 32⟩

/-- `FrameType` (`src/frames.rs:166`). -/
inductive FrameType
  | DATA
  | HEADERS
  | PRIORITY
  | RST_STREAM
  | SETTINGS
  | PUSH_PROMISE
  | PING
  | GOAWAY
  | WINDOW_UPDATE
  | CONTINUATION
  | ALTSVC
  | ORIGIN
  | UNKNOWN (v : Nat)
deriving DecidableEq

/-- `impl From<u8> for FrameType` (`src/frames.rs:196`). -/
def FrameType.ofByte (v : Nat) : FrameType :=
  match v with
  | 0x0 => .DATA
  | 0x1 => .HEADERS
  | 0x2 => .PRIORITY
  | 0x3 => .RST_STREAM
  | 0x4 => .SETTINGS
  | 0x5 => .PUSH_PROMISE
  | 0x6 => .PING
  | 0x7 => .GOAWAY
  | 0x8 => .WINDOW_UPDATE
  | 0x9 => .CONTINUATION
  | 0xa => .ALTSVC
  | 0xc => .ORIGIN
  | value => .UNKNOWN value

/-- `ErrorCode` (`src/frames.rs:59`). -/
inductive ErrorCode
  | NO_ERROR
  | PROTOCOL_ERROR
  | INTERNAL_ERROR
  | FLOW_CONTROL_ERROR
  | SETTINGS_TIMEOUT
  | STREAM_CLOSED
  | FRAME_SIZE_ERROR
  | REFUSED_STREAM
  | CANCEL
  | COMPRESSION_ERROR
  | CONNECT_ERROR
  | ENHANCE_YOUR_CALM
  | INADEQUATE_SECURITY
  | HTTP_1_1_REQUIRED
  | UNKNOWN (v : Nat)
deriving DecidableEq

/-- `impl From<u32> for ErrorCode` (`src/frames.rs:137`). -/
def ErrorCode.ofWord (v : Nat) : ErrorCode :=
  match v with
  | 0x0 => .NO_ERROR
  | 0x1 => .PROTOCOL_ERROR
  | 0x2 => .INTERNAL_ERROR
  | 0x3 => .FLOW_CONTROL_ERROR
  | 0x4 => .SETTINGS_TIMEOUT
  | 0x5 => .STREAM_CLOSED
  | 0x6 => .FRAME_SIZE_ERROR
  | 0x7 => .REFUSED_STREAM
  | 0x8 => .CANCEL
  | 0x9 => .COMPRESSION_ERROR
  | 0xa => .CONNECT_ERROR
  | 0xb => .ENHANCE_YOUR_CALM
  | 0xc => .INADEQUATE_SECURITY
  | 0xd => .HTTP_1_1_REQUIRED
  | v => .UNKNOWN v

/-- `SettingsParameter` (`src/frames.rs:222`). -/
inductive SettingsParameter
  | SETTINGS_HEADER_TABLE_SIZE
  | SETTINGS_ENABLE_PUSH
  | SETTINGS_MAX_CONCURRENT_STREAMS
  | SETTINGS_INITIAL_WINDOW_SIZE
  | SETTINGS_MAX_FRAME_SIZE
  | SETTINGS_MAX_HEADER_LIST_SIZE
  | RESERVED (v : Nat)
deriving DecidableEq

/-- `impl From<u16> for SettingsParameter` (`src/frames.rs:238`). -/
def SettingsParameter.ofRaw (v : Nat) : SettingsParameter :=
  match v with
  | 0x1 => .SETTINGS_HEADER_TABLE_SIZE
  | 0x2 => .SETTINGS_ENABLE_PUSH
  | 0x3 => .SETTINGS_MAX_CONCURRENT_STREAMS
  | 0x4 => .SETTINGS_INITIAL_WINDOW_SIZE
  | 0x5 => .SETTINGS_MAX_FRAME_SIZE
  | 0x6 => .SETTINGS_MAX_HEADER_LIST_SIZE
  | v => .RESERVED v

/-- `FrameHeader` (`src/frames.rs:333`). -/
structure FrameHeader where
  length : FrameHeaderLength
  frame_type : FrameType
  flags : Flags
  stream_identifier : StreamIdentifier
deriving DecidableEq

/-- `DataFrame` (`src/frames.rs:253`). -/
structure DataFrame where
  pad_length : Option Nat
  data : Bytes
  padding : Option Bytes
deriving DecidableEq

/-- `HeadersFrame` (`src/frames.rs:260`). -/
structure HeadersFrame where
  pad_length : Option Nat
  stream_dependency : Option StreamDependency
  weight : Option Nat
  header_block_fragment : Bytes
  padding : Option Bytes
deriving DecidableEq

/-- `PriorityFrame` (`src/frames.rs:269`). -/
structure PriorityFrame where
  stream_dependency : StreamDependency
  weight : Nat
deriving DecidableEq

/-- `RstStreamFrame` (`src/frames.rs:275`). -/
structure RstStreamFrame where
  error_code : ErrorCode
deriving DecidableEq

/-- The value produced by the unsafe pointer cast in `SettingsFrame::parse`
(`src/parsers.rs:240`): the source reinterprets the `6 * k`-byte wire region
directly as a slice of `k` in-memory `SettingsParameterFrame` records via
`core::slice::from_raw_parts`.  A `SettingsParameterFrame` is a native Rust
struct (a 4-byte `repr(u16)` enum field plus a 4-byte-aligned `u32`), so each
record spans at least 8 bytes of memory and the cast result depends on the
unspecified in-memory layout and on bytes outside the 6-byte wire pairs.  The
embedding therefore records what the cast aliases — the raw wire region and
the record count `len / 6` — rather than inventing concrete record values. -/
structure SettingsParametersCast where
  region : Bytes
  count : Nat
deriving DecidableEq

/-- `SettingsFrame` (`src/frames.rs:286`), with `parameters` holding the
pointer-cast result described at `SettingsParametersCast`. -/
structure SettingsFrame where
  parameters : Option SettingsParametersCast
deriving DecidableEq

/-- `PushPromiseFrame` (`src/frames.rs:303`). -/
structure PushPromiseFrame where
  pad_length : Option Nat
  promised_stream_identifier : StreamIdentifier
  header_block_fragment : Bytes
  padding : Option Bytes
deriving DecidableEq

/-- `PingFrame` (`src/frames.rs:291`). -/
structure PingFrame where
  opaque_data : Nat
deriving DecidableEq

/-- `GoAwayFrame` (`src/frames.rs:296`). -/
structure GoAwayFrame where
  last_stream_identifier : StreamIdentifier
  error_code : ErrorCode
  debug_data : Option Bytes
deriving DecidableEq

/-- `WindowUpdateFrame` (`src/frames.rs:311`). -/
structure WindowUpdateFrame where
  window_size_increment : WindowSizeIncrement
deriving DecidableEq

/-- `ContinuationFrame` (`src/frames.rs:316`). -/
structure ContinuationFrame where
  header_block_fragment : Bytes
deriving DecidableEq

/-- `parse_optional_padding_length` (`src/parsers.rs:14`): reads one byte as
the pad length exactly when the PADDED flag is set. -/
def parse_optional_padding_length (bytes : Bytes) (flags : Flags) :
    IResult (Option Nat) :=
  if Flags.contains flags Flags.PADDED then
    match beU8 bytes with
    | .error e => .error e
    | .ok (bytes, padLen) => .ok (bytes, some padLen)
  else .ok (bytes, none)

/-- `parse_optional_padding_bytes` (`src/parsers.rs:26`): takes `pl` padding
bytes exactly when a pad length was read. -/
def parse_optional_padding_bytes (bytes : Bytes) (maybePadLen : Option Nat) :
    IResult (Option Bytes) :=
  match maybePadLen with
  | some pl =>
    match nomTake pl bytes with
    | .error e => .error e
    | .ok (bytes, p) => .ok (bytes, some p)
  | none => .ok (bytes, none)

/-- `parse_optional_stream_dependency` (`src/parsers.rs:38`). -/
def parse_optional_stream_dependency (bytes : Bytes) (flags : Flags) :
    IResult (Option StreamDependency) :=
  if Flags.contains flags Flags.PRIORITY then
    match beU32 bytes with
    | .error e => .error e
    | .ok (bytes, i) => .ok (bytes, some (StreamDependency.from_bits i))
  else .ok (bytes, none)

/-- `parse_stream_dependency` (`src/parsers.rs:50`). -/
def parse_stream_dependency (bytes : Bytes) : IResult StreamDependency :=
  match beU32 bytes with
  | .error e => .error e
  | .ok (bytes, i) => .ok (bytes, StreamDependency.from_bits i)

/-- `parse_stream_identifier` (`src/parsers.rs:56`). -/
def parse_stream_identifier (bytes : Bytes) : IResult StreamIdentifier :=
  match beU32 bytes with
  | .error e => .error e
  | .ok (bytes, i) => .ok (bytes, StreamIdentifier.from_bits i)

/-- `parse_optional_weight` (`src/parsers.rs:62`). -/
def parse_optional_weight (bytes : Bytes) (flags : Flags) :
    IResult (Option Nat) :=
  if Flags.contains flags Flags.PRIORITY then
    match beU8 bytes with
    | .error e => .error e
    | .ok (bytes, w) => .ok (bytes, some w)
  else .ok (bytes, none)

/-- `parse_weight` (`src/parsers.rs:74`). -/
def parse_weight (bytes : Bytes) : IResult Nat := beU8 bytes

/-- `parse_error_code` (`src/parsers.rs:78`). -/
def parse_error_code (bytes : Bytes) : IResult ErrorCode :=
  match beU32 bytes with
  | .error e => .error e
  | .ok (bytes, v) => .ok (bytes, ErrorCode.ofWord v)

/-- `parse_payload` (`src/parsers.rs:83`): `take(length)`. -/
def parse_payload (bytes : Bytes) (length : Nat) : IResult Bytes :=
  nomTake length bytes

/-- `FrameHeader::parse` (`src/parsers.rs:117`): takes the 9 header bytes,
then reads 24-bit length, type byte, flags byte, and the 32-bit
stream-identifier word from them. -/
def FrameHeader.parse (bytes : Bytes) : IResult FrameHeader :=
  match nomTake 9 bytes with
  | .error e => .error e
  | .ok (tail, nine) =>
    match beU24 nine with
    | .error e => .error e
    | .ok (rest, len) =>
      match beU8 rest with
      | .error e => .error e
      | .ok (rest, ty) =>
        match beU8 rest with
        | .error e => .error e
        | .ok (rest, fl) =>
          match beU32 rest with
          | .error e => .error e
          | .ok (_, sid) =>
            .ok (tail,
              { length := FrameHeaderLength.from_bits len
                frame_type := FrameType.ofByte ty
                flags := Flags.ofByte fl
                stream_identifier := StreamIdentifier.from_bits sid })

/-- `DataFrame::parse` (`src/parsers.rs:138`): optional pad-length byte, then
`adjusted_len = length.length().saturating_sub(pad_len)` bytes of data
(`Nat` subtraction is saturating), then the optional padding bytes. -/
def DataFrame.parse (bytes : Bytes) (length : FrameHeaderLength)
    (flags : Flags) : IResult DataFrame :=
  match parse_optional_padding_length bytes flags with
  | .error e => .error e
  | .ok (bytes, maybePadLen) =>
    match parse_payload bytes
        (FrameHeaderLength.length length - maybePadLen.getD 0) with
    | .error e => .error e
    | .ok (bytes, dataBytes) =>
      match parse_optional_padding_bytes bytes maybePadLen with
      | .error e => .error e
      | .ok (bytes, maybePaddingBytes) =>
        .ok (bytes,
          { pad_length := maybePadLen
            data := dataBytes
            padding := maybePaddingBytes })

/-- `HeadersFrame::parse` (`src/parsers.rs:162`): optional pad-length byte,
optional stream dependency and weight (PRIORITY flag), then
`length.length().saturating_sub(pad_len)` fragment bytes, then the optional
padding bytes. -/
def HeadersFrame.parse (bytes : Bytes) (length : FrameHeaderLength)
    (flags : Flags) : IResult HeadersFrame :=
  match parse_optional_padding_length bytes flags with
  | .error e => .error e
  | .ok (bytes, maybePadLen) =>
    match parse_optional_stream_dependency bytes flags with
    | .error e => .error e
    | .ok (bytes, maybeStreamDependency) =>
      match parse_optional_weight bytes flags with
      | .error e => .error e
      | .ok (bytes, maybeWeight) =>
        match parse_payload bytes
            (FrameHeaderLength.length length - maybePadLen.getD 0) with
        | .error e => .error e
        | .ok (bytes, fragment) =>
          match parse_optional_padding_bytes bytes maybePadLen with
          | .error e => .error e
          | .ok (bytes, maybePaddingBytes) =>
            .ok (bytes,
              { pad_length := maybePadLen
                stream_dependency := maybeStreamDependency
                weight := maybeWeight
                header_block_fragment := fragment
                padding := maybePaddingBytes })

/-- `PriorityFrame::parse` (`src/parsers.rs:189`): takes 5 bytes, reads the
stream-dependency word and the weight byte from them. -/
def PriorityFrame.parse (bytes : Bytes) : IResult PriorityFrame :=
  match nomTake 5 bytes with
  | .error e => .error e
  | .ok (tail, five) =>
    match parse_stream_dependency five with
    | .error e => .error e
    | .ok (rest, sd) =>
      match parse_weight rest with
      | .error e => .error e
      | .ok (_, w) =>
        .ok (tail, { stream_dependency := sd, weight := w })

/-- `RstStreamFrame::parse` (`src/parsers.rs:205`). -/
def RstStreamFrame.parse (bytes : Bytes) : IResult RstStreamFrame :=
  match parse_error_code bytes with
  | .error e => .error e
  | .ok (bytes, errCode) => .ok (bytes, { error_code := errCode })

/-- `SettingsFrame::parse` (`src/parsers.rs:217`).  `addr` models
`bytes.as_ptr() as usize`, the machine address of the input slice's first
byte: the source rejects (with `ErrorKind::Verify`) any payload whose address
is not a multiple of `align_of::<SettingsParameterFrame>()`, which is 4 (the
struct holds a 4-byte-aligned `u32` field).  On the ACK flag the body is
skipped entirely; otherwise `length.length()` bytes are taken, rejected with
`ErrorKind::LengthValue` unless a multiple of 6, and then reinterpreted by the
unsafe pointer cast recorded as `SettingsParametersCast`. -/
def SettingsFrame.parse (bytes : Bytes) (length : FrameHeaderLength)
    (flags : Flags) (addr : Nat) : IResult SettingsFrame :=
  if Flags.contains flags Flags.ACK then .ok (bytes, { parameters := none })
  else
    match nomTake (FrameHeaderLength.length length) bytes with
    | .error e => .error e
    | .ok (tail, taken) =>
      if taken.length % 6 ≠ 0 then .error .lengthValue
      else if addr % 4 ≠ 0 then .error .verify
      else
        .ok (tail,
          { parameters := some { region := taken, count := taken.length / 6 } })

/-- `PushPromiseFrame::parse` (`src/parsers.rs:249`): takes `length.length()`
bytes, then within them reads the optional pad-length byte, the promised
stream id, `remaining.saturating_sub(pad_len)` fragment bytes (`remaining`
clamped to `u32::MAX`), and the optional padding bytes. -/
def PushPromiseFrame.parse (bytes : Bytes) (length : FrameHeaderLength)
    (flags : Flags) : IResult PushPromiseFrame :=
  match nomTake (FrameHeaderLength.length length) bytes with
  | .error e => .error e
  | .ok (tail, inner) =>
    match parse_optional_padding_length inner flags with
    | .error e => .error e
    | .ok (inner, maybePadLen) =>
      match parse_stream_identifier inner with
      | .error e => .error e
      | .ok (inner, psid) =>
        match parse_payload inner
            (min inner.length (2 ^ 32 - 1) - maybePadLen.getD 0) with
        | .error e => .error e
        | .ok (inner, fragment) =>
          match parse_optional_padding_bytes inner maybePadLen with
          | .error e => .error e
          | .ok (_, maybePaddingBytes) =>
            .ok (tail,
              { pad_length := maybePadLen
                promised_stream_identifier := psid
                header_block_fragment := fragment
                padding := maybePaddingBytes })

/-- `PingFrame::parse` (`src/parsers.rs:279`): reads a big-endian `u64`; the
function receives no declared length at all. -/
def PingFrame.parse (bytes : Bytes) : IResult PingFrame :=
  match beU64 bytes with
  | .error e => .error e
  | .ok (bytes, v) => .ok (bytes, { opaque_data := v })

/-- `GoAwayFrame::parse` (`src/parsers.rs:286`): takes `length.length()`
bytes, reads last stream id and error code, and wraps any remaining bytes as
optional debug data (`None` when none remain). -/
def GoAwayFrame.parse (bytes : Bytes) (length : FrameHeaderLength) :
    IResult GoAwayFrame :=
  match nomTake (FrameHeaderLength.length length) bytes with
  | .error e => .error e
  | .ok (tail, inner) =>
    match parse_stream_identifier inner with
    | .error e => .error e
    | .ok (inner, lastSid) =>
      match parse_error_code inner with
      | .error e => .error e
      | .ok (inner, errCode) =>
        if inner.length ≠ 0 then
          match parse_payload inner (min inner.length (2 ^ 32 - 1)) with
          | .error e => .error e
          | .ok (_, dbg) =>
            .ok (tail,
              { last_stream_identifier := lastSid
                error_code := errCode
                debug_data := some dbg })
        else
          .ok (tail,
            { last_stream_identifier := lastSid
              error_code := errCode
              debug_data := none })

/-- `WindowUpdateFrame::parse` (`src/parsers.rs:313`). -/
def WindowUpdateFrame.parse (bytes : Bytes) : IResult WindowUpdateFrame :=
  match beU32 bytes with
  | .error e => .error e
  | .ok (bytes, i) =>
    .ok (bytes, { window_size_increment := WindowSizeIncrement.from_bits i })

/-- `ContinuationFrame::parse` (`src/parsers.rs:326`). -/
def ContinuationFrame.parse (bytes : Bytes) (length : FrameHeaderLength) :
    IResult ContinuationFrame :=
  match parse_payload bytes (FrameHeaderLength.length length) with
  | .error e => .error e
  | .ok (bytes, fragment) => .ok (bytes, { header_block_fragment := fragment })

/-- What `Frame::parse` (`src/parsers.rs:347`) can do: the Rust function
returns `()`, so a run either returns normally (`ok`) or panics (`panicked` —
from `.unwrap()` on a decode error, or from the `todo!()` arms for ALTSVC,
ORIGIN and UNKNOWN frame types). -/
inductive DispatchOutcome
  | ok
  | panicked
deriving DecidableEq

/-- `Frame::parse` (`src/parsers.rs:347`): unwraps the header parse, then
dispatches on the frame type, unwrapping each body parse; ALTSVC, ORIGIN and
UNKNOWN hit `todo!()`.  `addr` is the machine address of the input buffer's
first byte (the SETTINGS body therefore starts at `addr + 9`). -/
def Frame.parse (bytes : Bytes) (addr : Nat) : DispatchOutcome :=
  match FrameHeader.parse bytes with
  | .error _ => .panicked
  | .ok (bytes, frameHeader) =>
    match frameHeader.frame_type with
    | .DATA =>
      match DataFrame.parse bytes frameHeader.length frameHeader.flags with
      | .error _ => .panicked
      | .ok _ => .ok
    | .HEADERS =>
      match HeadersFrame.parse bytes frameHeader.length frameHeader.flags with
      | .error _ => .panicked
      | .ok _ => .ok
    | .PRIORITY =>
      match PriorityFrame.parse bytes with
      | .error _ => .panicked
      | .ok _ => .ok
    | .RST_STREAM =>
      match RstStreamFrame.parse bytes with
      | .error _ => .panicked
      | .ok _ => .ok
    | .SETTINGS =>
      match SettingsFrame.parse bytes frameHeader.length frameHeader.flags
          (addr + 9) with
      | .error _ => .panicked
      | .ok _ => .ok
    | .PUSH_PROMISE =>
      match PushPromiseFrame.parse bytes frameHeader.length
          frameHeader.flags with
      | .error _ => .panicked
      | .ok _ => .ok
    | .PING =>
      match PingFrame.parse bytes with
      | .error _ => .panicked
      | .ok _ => .ok
    | .GOAWAY =>
      match GoAwayFrame.parse bytes frameHeader.length with
      | .error _ => .panicked
      | .ok _ => .ok
    | .WINDOW_UPDATE =>
      match WindowUpdateFrame.parse bytes with
      | .error _ => .panicked
      | .ok _ => .ok
    | .CONTINUATION =>
      match ContinuationFrame.parse bytes frameHeader.length with
      | .error _ => .panicked
      | .ok _ => .ok
    | .ALTSVC => .panicked
    | .ORIGIN => .panicked
    | .UNKNOWN _ => .panicked

/-!
Helper lemmas shared by the claim theorems.
-/

/-- On success, `parse_optional_padding_length` returns a pad length exactly
when the PADDED flag is set. -/
theorem parse_optional_padding_length_isSome {bytes tail : Bytes}
    {flags : Flags} {o : Option Nat}
    (h : parse_optional_padding_length bytes flags = .ok (tail, o)) :
    o.isSome = Flags.contains flags Flags.PADDED := by
  unfold parse_optional_padding_length at h
  split at h
  next hf =>
    split at h
    next => cases h
    next b v heq => cases h; simp [hf]
  next hf =>
    cases h
    simp at hf
    simp [hf]

/-- On success, `parse_optional_padding_bytes` returns padding bytes exactly
when a pad length was supplied. -/
theorem parse_optional_padding_bytes_isSome {bytes tail : Bytes}
    {mpl : Option Nat} {o : Option Bytes}
    (h : parse_optional_padding_bytes bytes mpl = .ok (tail, o)) :
    o.isSome = mpl.isSome := by
  unfold parse_optional_padding_bytes at h
  split at h
  next pl =>
    split at h
    next => cases h
    next b p heq => cases h; rfl
  next =>
    cases h
    rfl

/-- On a zero pad length, `parse_optional_padding_bytes` returns a present but
empty padding view. -/
theorem parse_optional_padding_bytes_zero {bytes tail : Bytes}
    {o : Option Bytes}
    (h : parse_optional_padding_bytes bytes (some 0) = .ok (tail, o)) :
    o = some [] := by
  unfold parse_optional_padding_bytes nomTake at h
  simp at h
  exact h.2.symm

/-- Claim C10: for every successful DATA, HEADERS or PUSH_PROMISE body decode,
the pad-length field is present exactly when the PADDED flag (bit `0x08`) is
set, the padding view is present exactly when the pad-length field is, and a
pad length of 0 yields a present-but-empty padding view (`some []`). -/
theorem c10_padding_presence_iff_padded_flag :
    (∀ (bytes tail : Bytes) (length : FrameHeaderLength) (flags : Flags)
        (d : DataFrame), DataFrame.parse bytes length flags = .ok (tail, d) →
        d.pad_length.isSome = Flags.contains flags Flags.PADDED ∧
        d.padding.isSome = d.pad_length.isSome ∧
        (d.pad_length = some 0 → d.padding = some []))
  ∧ (∀ (bytes tail : Bytes) (length : FrameHeaderLength) (flags : Flags)
        (hf : HeadersFrame),
        HeadersFrame.parse bytes length flags = .ok (tail, hf) →
        hf.pad_length.isSome = Flags.contains flags Flags.PADDED ∧
        hf.padding.isSome = hf.pad_length.isSome ∧
        (hf.pad_length = some 0 → hf.padding = some []))
  ∧ (∀ (bytes tail : Bytes) (length : FrameHeaderLength) (flags : Flags)
        (pp : PushPromiseFrame),
        PushPromiseFrame.parse bytes length flags = .ok (tail, pp) →
        pp.pad_length.isSome = Flags.contains flags Flags.PADDED ∧
        pp.padding.isSome = pp.pad_length.isSome ∧
        (pp.pad_length = some 0 → pp.padding = some [])) := by
  refine ⟨?_, ?_, ?_⟩
  · intro bytes tail length flags d h
    unfold DataFrame.parse at h
    split at h
    next => cases h
    next b1 mpl heq1 =>
      split at h
      next => cases h
      next b2 dataBytes heq2 =>
        split at h
        next => cases h
        next b3 mpb heq3 =>
          cases h
          refine ⟨parse_optional_padding_length_isSome heq1,
            parse_optional_padding_bytes_isSome heq3, ?_⟩
          intro hz
          simp only at hz
          rw [hz] at heq3
          exact parse_optional_padding_bytes_zero heq3
  · intro bytes tail length flags hf h
    unfold HeadersFrame.parse at h
    split at h
    next => cases h
    next b1 mpl heq1 =>
      split at h
      next => cases h
      next b2 msd heq2 =>
        split at h
        next => cases h
        next b3 mw heq3 =>
          split at h
          next => cases h
          next b4 frag heq4 =>
            split at h
            next => cases h
            next b5 mpb heq5 =>
              cases h
              refine ⟨parse_optional_padding_length_isSome heq1,
                parse_optional_padding_bytes_isSome heq5, ?_⟩
              intro hz
              simp only at hz
              rw [hz] at heq5
              exact parse_optional_padding_bytes_zero heq5
  · intro bytes tail length flags pp h
    unfold PushPromiseFrame.parse at h
    split at h
    next => cases h
    next t0 inner heq0 =>
      split at h
      next => cases h
      next b1 mpl heq1 =>
        split at h
        next => cases h
        next b2 psid heq2 =>
          split at h
          next => cases h
          next b3 frag heq3 =>
            split at h
            next => cases h
            next b4 mpb heq4 =>
              cases h
              refine ⟨parse_optional_padding_length_isSome heq1,
                parse_optional_padding_bytes_isSome heq4, ?_⟩
              intro hz
              simp only at hz
              rw [hz] at heq4
              exact parse_optional_padding_bytes_zero heq4

/-- Witness for C10: a PADDED DATA payload `[0x00]` with declared length 0
decodes with `pad_length = some 0`, a present pad-length field matching the
PADDED flag, and a present-but-empty padding view. -/
theorem c10_padding_presence_witness :
    (some 0 : Option Nat).isSome = Flags.contains (Flags.ofByte 8) Flags.PADDED
  ∧ (some ([] : Bytes)).isSome = (some 0 : Option Nat).isSome
  ∧ (some ([] : Bytes)) = some ([] : Bytes) := by
  have hd := c10_padding_presence_iff_padded_flag.1 [0] []
    (FrameHeaderLength.from_bits 0) (Flags.ofByte 8)
    { pad_length := some 0, data := [], padding := some [] } rfl
  exact ⟨hd.1, hd.2.1, hd.2.2 rfl⟩

/-- Claim C9: a SETTINGS body decode without the ACK flag whose available
payload (the `declared_length` bytes taken from the input) is not an exact
multiple of 6 bytes fails with the Malformed error (`ErrorKind::LengthValue`),
at every buffer address. -/
theorem c9_settings_non_multiple_of_six_is_malformed
    (bytes : Bytes) (length : FrameHeaderLength) (flags : Flags) (addr : Nat)
    (hack : Flags.contains flags Flags.ACK = false)
    (hmod : FrameHeaderLength.length length % 6 ≠ 0)
    (hav : FrameHeaderLength.length length ≤ bytes.length) :
    SettingsFrame.parse bytes length flags addr = .error .lengthValue := by
  unfold SettingsFrame.parse
  rw [hack]
  simp only [Bool.false_eq_true, if_false]
  unfold nomTake
  rw [if_neg (Nat.not_lt.mpr hav)]
  have hlen : (bytes.take (FrameHeaderLength.length length)).length
      = FrameHeaderLength.length length := by
    rw [List.length_take]
    exact Nat.min_eq_left hav
  simp only [hlen]
  rw [if_pos hmod]

/-- Witness for C9: the spec's own example — a SETTINGS frame (no ACK) with
declared length 7 and exactly 7 payload bytes present fails with
`ErrorKind::LengthValue`. -/
theorem c9_settings_witness :
    SettingsFrame.parse [0, 0, 0, 0, 0, 0, 0] (FrameHeaderLength.from_bits 7)
      (Flags.ofByte 0) 0 = .error .lengthValue :=
  c9_settings_non_multiple_of_six_is_malformed [0, 0, 0, 0, 0, 0, 0]
    (FrameHeaderLength.from_bits 7) (Flags.ofByte 0) 0 (by decide) (by decide)
    (by decide)

/-- Claim C5: the two header scenarios from the spec and the source test.
`[0x00,0x00,0x10,0x00,0x00,0x00,0x00,0x00,0x01]` decodes to length 16, type
DATA, flags NONE, stream-identifier word 1 with an empty tail, and
`[0x00,0x01,0x00,0x01,0xFF,0x00,0x00,0x00,0x02]` decodes to length 256, type
HEADERS, flags 0xFF, stream-identifier word 2 with an empty tail — the
records compared exactly as the source test compares them, via `from_bits`. -/
theorem c5_frame_header_scenarios :
    FrameHeader.parse [0x00, 0x00, 0x10, 0x00, 0x00, 0x00, 0x00, 0x00, 0x01]
      = .ok ([],
        { length := FrameHeaderLength.from_bits 16
          frame_type := FrameType.DATA
          flags := Flags.NONE
          stream_identifier := StreamIdentifier.from_bits 1 })
  ∧ FrameHeader.parse [0x00, 0x01, 0x00, 0x01, 0xFF, 0x00, 0x00, 0x00, 0x02]
      = .ok ([],
        { length := FrameHeaderLength.from_bits 256
          frame_type := FrameType.HEADERS
          flags := Flags.ofByte 0xFF
          stream_identifier := StreamIdentifier.from_bits 2 }) :=
  ⟨rfl, rfl⟩

/-- Claim C4 (code-bug evidence): header decode of the 9-byte buffer whose
big-endian stream-identifier word is 1 succeeds, but the logical
`stream_identifier()` accessor of the resulting record yields 0, not the low
31 bits of the word (which are 1): the `bitfield-struct` field order reserves
the least significant bit and keeps the high 31 bits, discarding the wrong
end of the word. -/
theorem c4_stream_identifier_reserved_bit_is_lsb :
    FrameHeader.parse [0, 0, 0, 0, 0, 0, 0, 0, 1]
      = .ok ([],
        { length := FrameHeaderLength.from_bits 0
          frame_type := FrameType.DATA
          flags := Flags.ofByte 0
          stream_identifier := StreamIdentifier.from_bits 1 })
  ∧ StreamIdentifier.stream_identifier (StreamIdentifier.from_bits 1) = 0
  ∧ 1 % 2 ^ 31 = 1 :=
  ⟨rfl, by decide, by decide⟩

/-- Claim C1 (code-bug evidence): a PADDED DATA payload `[0x00, 0xFF]` with
declared length 1 and pad length 0 decodes successfully with a 1-byte data
view — the byte `0xFF` lying beyond the declared 1-byte frame — because
`DataFrame::parse` computes the data-region size as
`declared_length.saturating_sub(P)` without subtracting the pad-length byte
it already consumed; the claim requires size `1 - 1 - 0 = 0`. -/
theorem c1_data_padded_region_ignores_pad_length_byte :
    DataFrame.parse [0x00, 0xFF] (FrameHeaderLength.from_bits 1)
        (Flags.ofByte 0x08)
      = .ok ([], { pad_length := some 0, data := [0xFF], padding := some [] })
  ∧ ¬ (([0xFF] : Bytes).length
        = FrameHeaderLength.length (FrameHeaderLength.from_bits 1) - 1 - 0) :=
  ⟨rfl, by decide⟩

/-- Claim C2 (code-bug evidence): the dispatcher `Frame::parse` panics — it
hits `todo!()` on a header whose type byte is `0xFF` (`UNKNOWN(0xFF)`), and it
panics through `.unwrap()` when a body codec fails (here a DATA frame whose
declared length 4 exceeds the 0 available payload bytes); it returns `()` on
success, so it never returns an outcome carrying the header or type byte. -/
theorem c2_dispatcher_panics_instead_of_returning :
    Frame.parse [0, 0, 0, 0xFF, 0, 0, 0, 0, 0] 0 = .panicked
  ∧ Frame.parse [0, 0, 4, 0, 0, 0, 0, 0, 1] 0 = .panicked :=
  ⟨rfl, rfl⟩

/-- Claim C6 (code-bug evidence): `PingFrame::parse` receives no declared
length at all and always reads 8 bytes: on the 8-byte buffer `[1..8]` it
succeeds and consumes all 8 bytes, and a full PING frame whose header
declares length 0 but is followed by 8 stray bytes is dispatched
successfully — the body codec consumes 8 bytes instead of the declared 0 and
never fails Malformed. -/
theorem c6_ping_ignores_declared_length :
    PingFrame.parse [1, 2, 3, 4, 5, 6, 7, 8]
      = .ok ([], { opaque_data := 72623859790382856 })
  ∧ Frame.parse [0, 0, 0, 6, 0, 0, 0, 0, 0, 1, 2, 3, 4, 5, 6, 7, 8] 0
      = .ok :=
  ⟨rfl, rfl⟩

/-- Claim C7 (code-bug evidence): a PADDED DATA payload with declared length 1
and pad-length byte 5 (so `P = 5` exceeds the remaining declared length)
decodes successfully instead of failing Malformed: `saturating_sub` silently
truncates the data region to zero, and the 5 padding bytes are read from
beyond the declared 1-byte frame boundary (6 bytes consumed in total). -/
theorem c7_overlong_padding_silently_truncates :
    DataFrame.parse [5, 1, 2, 3, 4, 5] (FrameHeaderLength.from_bits 1)
        (Flags.ofByte 0x08)
      = .ok ([],
        { pad_length := some 5, data := [], padding := some [1, 2, 3, 4, 5] })
      := rfl

/-- Claim C8 (code-bug evidence): two SETTINGS body decodes over identical
byte contents `[0, 1, 0, 0, 0, 2]` return different outcomes depending only
on the buffer's machine address — success at an aligned address, `Verify`
failure at an unaligned one — because `SettingsFrame::parse` inspects
`bytes.as_ptr()` before its unsafe pointer cast. -/
theorem c8_settings_outcome_depends_on_buffer_address :
    SettingsFrame.parse [0, 1, 0, 0, 0, 2] (FrameHeaderLength.from_bits 6)
        (Flags.ofByte 0) 0
      = .ok ([],
        { parameters := some { region := [0, 1, 0, 0, 0, 2], count := 1 } })
  ∧ SettingsFrame.parse [0, 1, 0, 0, 0, 2] (FrameHeaderLength.from_bits 6)
        (Flags.ofByte 0) 1
      = .error .verify :=
  ⟨rfl, rfl⟩
